import Mathlib

/-!
Shallow embedding of the matrix-wechat bridge core: the portal message
state machine (internal/portal.go), the websocket request/response
multiplexer (internal/wechat/wechatservice.go) and the remote client
facade (internal/wechat/client.go), together with theorems checking the
specification claims about deduplication, revocation handling, media
failure degradation, request/response matching and waiter cleanup.

External collaborators (hub SDK calls, the persistent store, transcoding
utilities) are modelled as oracle fields of an environment record, as the
spec itself places them out of scope (spec section 1); the control flow of
the embedded functions follows internal/portal.go and
internal/wechat/wechatservice.go line by line.
-/

namespace MWBridge

/-- Modelled from the spec: the tag of a remote identity, a tagged union of
user and group (spec section 3, Remote Identity); the types package file
defining types.UID is absent from the snapshot, only its callers are. -/
inductive UIDType
  | user
  | group
deriving DecidableEq, Repr

/-- Modelled from the spec: a remote identity (types.UID), tag plus opaque
string identifier; equality depends on both (spec section 3). -/
structure UID where
  uin : String
  typ : UIDType
deriving DecidableEq, Repr

/-- types.NewUserUID: construct a user-tagged identity. -/
def NewUserUID (uin : String) : UID := ⟨uin, .user⟩

/-- types.NewGroupUID: construct a group-tagged identity. -/
def NewGroupUID (uin : String) : UID := ⟨uin, .group⟩

/-- Modelled from the spec: a portal key, the (conversation UID, receiver UID)
pair (database.PortalKey; spec section 3). -/
structure PortalKey where
  uid : UID
  receiver : UID
deriving DecidableEq, Repr

/- Matrix event-type and message-type constants (maunium event package). -/

def EventMessage : String := "m.room.message"
def FormatHTML : String := "org.matrix.custom.html"
def MsgText : String := "m.text"
def MsgEmote : String := "m.emote"
def MsgNotice : String := "m.notice"
def MsgImage : String := "m.image"
def MsgAudio : String := "m.audio"
def MsgVideo : String := "m.video"
def MsgFile : String := "m.file"
def MsgLocation : String := "m.location"

/- database.MessageType and database.MessageErrorType constants
   (internal/database/message.go). -/

def MsgTypeFake : String := "fake"
def MsgTypeNormal : String := "message"
def MsgNoError : String := ""

/-- A message record (internal/database/message.go, struct Message). -/
structure DBMessage where
  chat : PortalKey
  msgID : String
  mxid : String
  sender : UID
  timestamp : Int
  sent : Bool
  msgType : String
  errType : String
deriving DecidableEq, Repr

/-- Message.IsFakeMXID (message.go line 47). -/
def DBMessage.isFakeMXID (m : DBMessage) : Bool :=
  m.mxid.startsWith "me.lxduo.wechat.fake::"

/-- Message.IsFakeMsgID (message.go line 51). -/
def DBMessage.isFakeMsgID (m : DBMessage) : Bool :=
  m.msgID.startsWith "FAKE::" || m.msgID == m.mxid

/-- The message table, modelled as a record list; MessageQuery.GetByMsgID
looks a record up by portal key and remote message id (the query file is
absent from the snapshot; spec section 3 declares records unique per
(portal key, remote message ID) and section 6 declares the store a plain
keyed CRUD surface). -/
def GetByMsgID (db : List DBMessage) (key : PortalKey) (msgID : String) :
    Option DBMessage :=
  db.find? (fun m => m.chat == key && m.msgID == msgID)

/-- Message.UpdateMXID (message.go line 96): update mxid, type and error of
the record keyed by (chat, msg id). -/
def UpdateMXID (db : List DBMessage) (key : PortalKey) (msgID : String)
    (mxid msgType errType : String) : List DBMessage :=
  db.map (fun m =>
    if m.chat == key && m.msgID == msgID then
      { m with mxid := mxid, msgType := msgType, errType := errType }
    else m)

/- WeChat protocol events (internal/wechat/protocol.go). -/

/-- wechat.EventType (protocol.go line 299). -/
inductive WEventType
  | text
  | photo
  | sticker
  | audio
  | video
  | file
  | location
  | notice
  | app
  | revoke
  | voip
  | system
deriving DecidableEq, Repr

/-- wechat.ToMessageType (internal/wechat/util.go line 24). -/
def ToMessageType (t : WEventType) : String :=
  match t with
  | .text => MsgText
  | .photo => MsgImage
  | .sticker => MsgImage
  | .audio => MsgAudio
  | .video => MsgVideo
  | .file => MsgFile
  | .location => MsgLocation
  | _ => MsgText

/-- wechat.User (protocol.go line 46); only the id is consumed by the
portal code paths embedded here. -/
structure WUser where
  id : String
deriving DecidableEq, Repr

/-- wechat.ReplyInfo (protocol.go line 58). -/
structure WReplyInfo where
  id : String
  timestamp : Int
  sender : String
  content : String
deriving DecidableEq, Repr

/-- wechat.BlobData (protocol.go line 82); the byte slice is a list of
byte values. -/
structure BlobData where
  name : String
  mime : String
  binary : List Nat
deriving DecidableEq, Repr

/-- wechat.LocationData (protocol.go line 75). Coordinates are float64 in
the source; they are carried opaquely here (no claim concerns them). -/
structure LocationData where
  name : String
  address : String
  longitude : Float
  latitude : Float
deriving Repr

/-- wechat.AppData (protocol.go line 65). -/
structure AppData where
  title : String
  description : String
  source : String
  url : String
deriving DecidableEq, Repr

/-- The kind-specific payload of an event (the dynamically typed Data field
of wechat.Event, decoded per kind in protocol.go lines 219-257). -/
inductive WEventData
  | nothing
  | photos (blobs : List BlobData)
  | blob (b : BlobData)
  | loc (l : LocationData)
  | app (a : AppData)
deriving Repr

/-- wechat.Event (protocol.go line 33). -/
structure WEvent where
  id : String
  timestamp : Int
  fromUser : WUser
  chatID : String
  typ : WEventType
  content : String
  mentions : List String
  reply : Option WReplyInfo
  data : WEventData
deriving Repr

/- Portal-side content model (mautrix event.MessageEventContent, reduced to
the fields the embedded code paths read or write). -/

/-- The rendered content of a hub message. replyToMXID stands for the
RelatesTo reply reference installed by Portal.SetReply; url for the media
content URI installed by Portal.uploadMedia. -/
structure MessageEventContent where
  msgType : String
  body : String
  format : String := ""
  formattedBody : String := ""
  geoURI : String := ""
  infoMime : String := ""
  infoSize : Nat := 0
  url : String := ""
  replyToMXID : String := ""
deriving DecidableEq, Repr

/-- An appservice intent handle: its hub user id and whether it is a double
puppet (appservice.IntentAPI fields consumed by portal.go). -/
structure Intent where
  userID : String
  isCustomPuppet : Bool
deriving DecidableEq, Repr

/-- internal.ConvertedMessage (portal.go line 89), reduced to the fields the
embedded paths consume. -/
structure ConvertedMessage where
  intent : Intent
  typ : String := ""
  content : MessageEventContent := {msgType := "", body := ""}
  convError : String := MsgNoError
deriving DecidableEq, Repr

/-- internal.ReplyInfo (portal.go line 84). -/
structure PReplyInfo where
  messageID : String
  sender : UID := ⟨"", .user⟩
deriving DecidableEq, Repr

/-- internal.fakeMessage (portal.go line 101). -/
structure FakeMsg where
  sender : UID
  text : String
  id : String
  time : Int
  important : Bool
  replyTo : Option PReplyInfo := none
deriving DecidableEq, Repr

/-- A message event that reached the hub room (the observable effect of a
successful Portal.sendMessage call). -/
structure HubMessage where
  intentUser : String
  eventType : String
  content : MessageEventContent
  timestamp : Int
  eventID : String
deriving DecidableEq, Repr

/-- recentlyHandledLength (portal.go line 41). -/
def recentlyHandledLength : Nat := 100

/-- The portal state: the fields of internal.Portal and database.Portal the
embedded code paths touch, the message-record store, and the observable
traces of hub-room effects (messages sent, redaction calls issued). -/
structure PortalState where
  key : PortalKey
  mxid : String := ""
  encrypted : Bool := false
  topic : String := ""
  recentlyHandled : List (String × String) :=
    List.replicate recentlyHandledLength ("", "")
  recentlyHandledIndex : Nat := 0
  db : List DBMessage := []
  hubMessages : List HubMessage := []
  redactCalls : List (String × String × String) := []
deriving DecidableEq, Repr

/-- Portal.IsPrivateChat (portal.go line 1181). -/
def PortalState.IsPrivateChat (p : PortalState) : Bool :=
  p.key.uid.typ == .user

/-- The outcome of an intent.UploadMedia or intent.UploadAsync call
(uploadMedia, portal.go line 1283): a content URI, or the error classes
convertWechatMedia distinguishes (mautrix.MTooLarge, an HTTP 413 from a
proxy, anything else). -/
inductive UploadOutcome
  | ok (mxc : String)
  | tooLarge
  | http413
  | failed (msg : String)
deriving DecidableEq, Repr

/-- The outcome of an intent.RedactEvent call (handleWechatRevoke,
portal.go line 252): success, mautrix.MForbidden, or another error. -/
inductive RedactOutcome
  | ok
  | forbidden
  | failed (msg : String)
deriving DecidableEq, Repr

/-- The bridge configuration bits the embedded paths read
(internal/config/bridgeconfig.go). -/
structure BridgeConfig where
  allowRedaction : Bool
deriving DecidableEq, Repr

/-- The environment of a portal: configuration plus the external
collaborator surfaces (hub SDK, puppet registry, formatter, transcoders)
that the spec places out of scope (section 1) and the embedding treats as
deterministic oracles. -/
structure PortalEnv where
  cfg : BridgeConfig
  /-- getMessageIntent (portal.go line 543): puppet lookup plus IntentFor;
  none models a nil puppet. -/
  puppetIntent : UID → Option Intent
  /-- Portal.sendMessage (portal.go line 1243): returns the new hub event
  id, or none on error. -/
  send : Intent → String → MessageEventContent → Int → Option String
  /-- intent.RedactEvent outcome, per intent user and target event id. -/
  redact : String → String → String → RedactOutcome
  /-- MainIntent for a portal key (portal.go line 1189): the default puppet
  of the conversation for a private chat, the bridge bot otherwise. -/
  mainIntent : PortalKey → Intent
  /-- util.ReplaceEmotion: pure emoji-shortcode substitution
  (internal/util.go line 286; a fixed pure text replacer). -/
  replaceEmotion : String → String
  /-- util.silk2ogg: external ffmpeg transcode, none on failure. -/
  silkToOgg : List Nat → Option (List Nat)
  /-- mimetype.Detect on a byte slice. -/
  mimeDetect : List Nat → String
  /-- uploadMedia outcome (portal.go line 1283). -/
  upload : Intent → List Nat → UploadOutcome
  /-- Formatter.GetMatrixInfoByUID: (mxid, display name). -/
  matrixInfo : String → UID → String × String
  /-- Client.GetGroupMemberNickname. -/
  groupNickname : String → String → String
  /-- format.RenderMarkdown, body to formatted body. -/
  renderMarkdown : String → String
  /-- The outcome of the room-creation body of Portal.CreateMatrixRoom
  (portal.go lines 1013-1122): the created room id, or the error from
  EnsureRegistered or intent.CreateRoom. -/
  createRoom : PortalKey → Except String String

/-- Portal.sendMessage observable effect: on success the rendered content is
appended to the hub room trace and the event id returned. -/
def sendMessageP (env : PortalEnv) (p : PortalState) (intent : Intent)
    (etype : String) (content : MessageEventContent) (ts : Int) :
    PortalState × Option String :=
  match env.send intent etype content ts with
  | none => (p, none)
  | some eid =>
      ({ p with hubMessages :=
          p.hubMessages ++ [⟨intent.userID, etype, content, ts, eid⟩] },
        some eid)

/-- The scan loop of Portal.isRecentlyHandled (portal.go line 494):
Go form, for i := start; i != start; i = (i - 1) % recentlyHandledLength.
The loop guard is evaluated before every iteration, the first included; i
is a uint8, so the decrement wraps modulo 256 before the modulo 100. Fuel
bounds the number of iterations (256 covers every reachable index). -/
def isRecentlyHandledScan (buf : List (String × String)) (start : Nat)
    (looking : String × String) : Nat → Nat → Bool
  | _, 0 => false
  | i, fuel + 1 =>
    if i != start then
      if buf.getD i ("", "") == looking then true
      else isRecentlyHandledScan buf start looking
        (((i + 255) % 256) % recentlyHandledLength) fuel
    else false

/-- Portal.isRecentlyHandled (portal.go line 491). -/
def isRecentlyHandled (p : PortalState) (idv : String) (err : String) : Bool :=
  isRecentlyHandledScan p.recentlyHandled p.recentlyHandledIndex (idv, err)
    p.recentlyHandledIndex 256

/-- Portal.markHandled (portal.go line 503): insert a fresh record or update
the existing one in place, then advance the recently-handled ring. -/
def markHandled (p : PortalState) (existing : Option DBMessage)
    (msgID : String) (ts : Int) (sender : UID) (mxid : String)
    (isSent recent : Bool) (msgType errType : String) : PortalState :=
  let step :=
    match existing with
    | none =>
        let m : DBMessage :=
          ⟨p.key, msgID, mxid, sender, ts, isSent, msgType, errType⟩
        ({ p with db := m :: p.db }, m.msgID)
    | some m =>
        ({ p with db := UpdateMXID p.db m.chat m.msgID mxid msgType errType },
          m.msgID)
  let p1 := step.1
  if recent then
    { p1 with
      recentlyHandledIndex := (p1.recentlyHandledIndex + 1) % recentlyHandledLength,
      recentlyHandled :=
        p1.recentlyHandled.set p1.recentlyHandledIndex (step.2, errType) }
  else p1

/-- Portal.finishHandling (portal.go line 552). -/
def finishHandling (p : PortalState) (existing : Option DBMessage)
    (msgID : String) (ts : Int) (sender : UID) (mxid : String)
    (msgType errType : String) : PortalState :=
  markHandled p existing msgID ts sender mxid true true msgType errType

/-- Portal.SetReply (portal.go line 1197), reduced to its observable effect:
install the reply reference to the stored hub event of the referenced
message, unless the record is missing or fake (the GetEvent fetch and
decryption only refine how the reference is rendered). -/
def SetReply (p : PortalState) (content : MessageEventContent)
    (replyTo : Option PReplyInfo) : MessageEventContent :=
  match replyTo with
  | none => content
  | some r =>
    match GetByMsgID p.db p.key r.messageID with
    | none => content
    | some m =>
        if m.isFakeMXID then content
        else { content with replyToMXID := m.mxid }

/-- Portal.handleFakeMessage (portal.go line 194). -/
def handleFakeMessage (env : PortalEnv) (p : PortalState) (msg : FakeMsg) :
    PortalState :=
  if isRecentlyHandled p msg.id MsgNoError then p
  else
    match GetByMsgID p.db p.key msg.id with
    | some _ => p
    | none =>
      match env.puppetIntent msg.sender with
      | none => p
      | some intent =>
        if !intent.isCustomPuppet && p.IsPrivateChat
            && msg.sender.uin == p.key.receiver.uin then p
        else
          let msgType := if msg.important then MsgText else MsgNotice
          let content : MessageEventContent := { msgType := msgType, body := msg.text }
          let content :=
            match msg.replyTo with
            | some _ => SetReply p content msg.replyTo
            | none => content
          match sendMessageP env p intent EventMessage content msg.time with
          | (p1, none) => p1
          | (p1, some eid) =>
              finishHandling p1 none msg.id msg.time msg.sender eid
                MsgTypeFake MsgNoError

/-- Portal.handleWechatRevoke (portal.go line 230). -/
def handleWechatRevoke (env : PortalEnv) (p : PortalState) (message : WEvent) :
    PortalState :=
  let msgID := message.id
  if !env.cfg.allowRedaction then
    handleFakeMessage env p
      { sender := NewUserUID message.fromUser.id
        text := message.content
        id := "FAKE::" ++ msgID
        time := message.timestamp
        important := false
        replyTo := some { messageID := msgID } }
  else
    match GetByMsgID p.db p.key msgID with
    | none => p
    | some m =>
      if m.isFakeMXID then p
      else
        match env.puppetIntent (NewUserUID message.fromUser.id) with
        | none => p
        | some intent =>
          let p1 := { p with redactCalls :=
            p.redactCalls ++ [(intent.userID, p.mxid, m.mxid)] }
          match env.redact intent.userID p1.mxid m.mxid with
          | .ok => p1
          | .forbidden =>
              { p1 with redactCalls :=
                p1.redactCalls ++ [((env.mainIntent p1.key).userID, p1.mxid, m.mxid)] }
          | .failed _ => p1

/-- Portal.convertWechatText (portal.go line 344). -/
def convertWechatText (env : PortalEnv) (p : PortalState) (msg : WEvent)
    (intent : Intent) : ConvertedMessage :=
  let emotionContent := env.replaceEmotion msg.content
  let content : MessageEventContent := { msgType := MsgText, body := emotionContent }
  let content :=
    if msg.mentions.length > 0 then
      let folded := msg.mentions.foldl
        (fun (acc : String × String) mention =>
          let info := env.matrixInfo p.mxid (NewUserUID mention)
          let groupNickname := env.groupNickname p.key.uid.uin mention
          let original := "@" ++ groupNickname
          let replacement :=
            "<a href=\"https://matrix.to/#/" ++ info.1 ++ "\">" ++ info.2 ++ "</a> "
          if groupNickname.length > 0
              && (emotionContent.splitOn original).length > 1 then
            (acc.1.replace original replacement, acc.2)
          else (acc.1, acc.2 ++ replacement))
        (emotionContent, "")
      let formattedHead :=
        if folded.2.length > 0 then folded.2 ++ "<br> " else folded.2
      { msgType := MsgText, format := FormatHTML, body := msg.content,
        formattedBody := formattedHead ++ folded.1 }
    else content
  { intent := intent, typ := EventMessage, content := content }

/-- Portal.makeMediaBridgeFailureMessage (portal.go line 1259). -/
def makeMediaBridgeFailureMessage (bridgeErr : String)
    (converted : ConvertedMessage) : ConvertedMessage :=
  { converted with
    typ := EventMessage
    content := { msgType := MsgNotice,
                 body := "Failed to bridge media: " ++ bridgeErr } }

/-- Portal.convertWechatMedia (portal.go line 392). none models the runtime
panic of the Data type assertion (recovered by the message loop, leaving the
portal state untouched). -/
def convertWechatMedia (env : PortalEnv) (msg : WEvent) (intent : Intent) :
    Option ConvertedMessage :=
  let converted : ConvertedMessage := { intent := intent }
  let data? : Option BlobData :=
    if msg.typ == .photo then
      match msg.data with
      | .photos (b :: _) => some b
      | _ => none
    else
      match msg.data with
      | .blob b => some b
      | _ => none
  match data? with
  | none => none
  | some data =>
    let binary? : Option (List Nat) :=
      if msg.typ == .audio then env.silkToOgg data.binary
      else some data.binary
    match binary? with
    | none =>
        some (makeMediaBridgeFailureMessage
          "failed to convert silk audio to ogg format" converted)
    | some binary =>
      let mime := env.mimeDetect binary
      let content : MessageEventContent :=
        { msgType := ToMessageType msg.typ, body := data.name,
          infoMime := mime, infoSize := binary.length }
      let converted := { converted with typ := EventMessage, content := content }
      match env.upload intent binary with
      | .tooLarge =>
          some (makeMediaBridgeFailureMessage
            "homeserver rejected too large file" converted)
      | .http413 =>
          some (makeMediaBridgeFailureMessage
            "proxy rejected too large file" converted)
      | .failed e =>
          some (makeMediaBridgeFailureMessage
            ("failed to upload media: " ++ e) converted)
      | .ok mxc =>
          some { converted with content := { content with url := mxc } }

/-- Portal.convertWechatLocation (portal.go line 442). The decimal rendering
of the float64 coordinates (Go %.5f) is carried by toString; no claim
depends on it. -/
def convertWechatLocation (msg : WEvent) (intent : Intent) :
    Option ConvertedMessage :=
  match msg.data with
  | .loc data =>
    let url := "https://maps.google.com/?q=" ++ toString data.latitude ++ ","
      ++ toString data.longitude
    some { intent := intent, typ := EventMessage,
           content :=
             { msgType := MsgLocation,
               body := "Location: " ++ data.name ++ "\n" ++ data.address
                 ++ "\n" ++ url,
               format := FormatHTML,
               formattedBody := "Location: <a href=" ++ url ++ ">" ++ data.name
                 ++ "</a><br>" ++ data.address,
               geoURI := "geo:" ++ toString data.latitude ++ ","
                 ++ toString data.longitude } }
  | _ => none

/-- Portal.convertWechatApp (portal.go line 465). -/
def convertWechatApp (env : PortalEnv) (msg : WEvent) (intent : Intent) :
    Option ConvertedMessage :=
  match msg.data with
  | .app data =>
    let body :=
      if data.url.length > 0 then
        "[" ++ data.title ++ "](" ++ data.url ++ ")\n" ++ data.description
      else "**" ++ data.title ++ "**\n" ++ data.description
    some { intent := intent, typ := EventMessage,
           content :=
             { msgType := MsgText, format := FormatHTML, body := body,
               formattedBody := env.renderMarkdown body } }
  | _ => none

/-- Portal.handleWechatEvent (portal.go line 265): step 1 duplicate lookup
by (portal key, remote message id), revocation override, intent and
double-puppet checks, kind dispatch to the converters, reply resolution,
send, record. -/
def handleWechatEvent (env : PortalEnv) (p : PortalState) (msg : WEvent) :
    PortalState :=
  if p.mxid.length == 0 then p
  else
    let msgID := msg.id
    let sender := NewUserUID msg.fromUser.id
    let ts := msg.timestamp
    match GetByMsgID p.db p.key msgID with
    | some _ =>
      if msg.typ == .revoke then handleWechatRevoke env p msg else p
    | none =>
      match env.puppetIntent sender with
      | none => p
      | some intent =>
        if !intent.isCustomPuppet && p.IsPrivateChat
            && sender.uin == p.key.receiver.uin then p
        else
          let dflt : ConvertedMessage :=
            { intent := intent, typ := EventMessage,
              content := { msgType := MsgText, body := msg.content } }
          match msg.typ with
          | .voip | .system =>
            handleFakeMessage env p
              { sender := sender, text := msg.content,
                id := "FAKE::" ++ msgID, time := ts, important := false }
          | _ =>
            let conv? : Option (PortalState × ConvertedMessage) :=
              match msg.typ with
              | .text => some (p, convertWechatText env p msg intent)
              | .photo | .sticker | .video | .audio | .file =>
                  (convertWechatMedia env msg intent).map (fun c => (p, c))
              | .location =>
                  (convertWechatLocation msg intent).map (fun c => (p, c))
              | .notice => some ({ p with topic := msg.content }, dflt)
              | .app =>
                  (convertWechatApp env msg intent).map (fun c => (p, c))
              | _ => some (p, dflt)
            match conv? with
            | none => p
            | some (p1, converted) =>
              let content :=
                match msg.reply with
                | some r =>
                    SetReply p1 converted.content
                      (some { messageID := r.id, sender := NewUserUID r.sender })
                | none => converted.content
              match sendMessageP env p1 converted.intent converted.typ content ts with
              | (p2, none) => p2
              | (p2, some eid) =>
                if eid.length != 0 then
                  finishHandling p2 none msgID ts sender eid MsgTypeNormal
                    converted.convError
                else p2

/- Message loop and room creation (portal.go lines 134-192, 1005-1163). -/

/-- One item of the remote-origin portal queue (internal.PortalMessage,
portal.go line 54): an agent event, a fake message, or neither. -/
inductive PortalMessageItem
  | event (e : WEvent)
  | fake (f : FakeMsg)
  | empty
deriving Repr

/-- The sequential outcome of Portal.CreateMatrixRoom (portal.go line 1005):
if the portal already has a room the call returns nil at once; otherwise the
creation body runs under roomCreateLock (metadata assembly and the hub SDK
calls of lines 1013-1122 are abstracted into env.createRoom) and populates
the room id on success. -/
def CreateMatrixRoomSeq (env : PortalEnv) (p : PortalState) :
    Except String PortalState :=
  if p.mxid.length > 0 then .ok p
  else
    match env.createRoom p.key with
    | .error e => .error e
    | .ok roomID => .ok { p with mxid := roomID }

/-- Portal.handleWechatMessageLoopItem (portal.go line 134): create the room
first when it is missing, dropping the message if creation fails; then
dispatch to the event or fake handler. -/
def handleWechatMessageLoopItem (env : PortalEnv) (p : PortalState)
    (msg : PortalMessageItem) : PortalState :=
  let room :=
    if p.mxid.length == 0 then CreateMatrixRoomSeq env p
    else .ok p
  match room with
  | .error _ => p
  | .ok p1 =>
    match msg with
    | .event e => handleWechatEvent env p1 e
    | .fake f => handleFakeMessage env p1 { f with id := "FAKE::" ++ f.id }
    | .empty => p1

/-- The remote-origin half of Portal.handleMessageLoop (portal.go line 183)
applied to a drained queue. -/
def runWechatMessageLoop (env : PortalEnv) (p : PortalState)
    (msgs : List PortalMessageItem) : PortalState :=
  msgs.foldl (handleWechatMessageLoopItem env) p

/- Interleaving model of Portal.CreateMatrixRoom for concurrent callers.
The function performs, in order: the room-id check (line 1006, before any
locking), the roomCreateLock acquisition (line 1010), then the creation
body that ends with the CreateRoom call and the room-id assignment (lines
1113-1122). Each of those is one atomic step here; the body is a single
step because the lock is held throughout it. -/

/-- Program counter of one caller of Portal.CreateMatrixRoom. -/
inductive CMRLoc
  | start
  | waiting
  | locked
  | done (created : Bool)
deriving DecidableEq, Repr

/-- Shared state of two concurrent CreateMatrixRoom callers: the portal
room id, the roomCreateLock, the trace of intent.CreateRoom calls, and each
caller's program counter. -/
structure CMRSys where
  mxid : String := ""
  lockHeld : Option (Fin 2) := none
  createdRooms : List String := []
  loc : Fin 2 → CMRLoc

/-- One step of caller t. At .start the caller evaluates the line-1006
check: a populated room id returns nil immediately, an empty one proceeds
to the lock. At .waiting it acquires the free lock or stays blocked. At
.locked it runs the creation body: CreateRoom is called, the room id is
assigned, the lock is released. newRoom names the room the hub would
allocate for that CreateRoom call. -/
def cmrStep (sys : CMRSys) (t : Fin 2) (newRoom : String) : CMRSys :=
  match sys.loc t with
  | .start =>
    if sys.mxid.length > 0 then
      { sys with loc := Function.update sys.loc t (.done false) }
    else
      { sys with loc := Function.update sys.loc t .waiting }
  | .waiting =>
    match sys.lockHeld with
    | none =>
        { sys with lockHeld := some t,
                   loc := Function.update sys.loc t .locked }
    | some _ => sys
  | .locked =>
    { sys with mxid := newRoom,
               createdRooms := sys.createdRooms ++ [newRoom],
               lockHeld := none,
               loc := Function.update sys.loc t (.done true) }
  | .done _ => sys

/-- Run a schedule of interleaved steps. -/
def cmrRun (sys : CMRSys) (sched : List (Fin 2 × String)) : CMRSys :=
  sched.foldl (fun s step => cmrStep s step.1 step.2) sys

/-- The initial system: no room yet, both callers at the check. -/
def cmrInit : CMRSys := { loc := fun _ => .start }

/- Hub-to-remote path (portal.go lines 1351-1473). -/

/-- The m.sticker event type. -/
def EventSticker : String := "m.sticker"

/-- wechat.ToEventType (internal/wechat/util.go line 5). -/
def ToEventType (t : String) : WEventType :=
  if t == MsgText then .text
  else if t == MsgImage then .photo
  else if t == MsgAudio then .audio
  else if t == MsgVideo then .video
  else if t == MsgFile then .file
  else if t == MsgLocation then .location
  else .text

/-- MessageQuery.GetByMXID: look a record up by hub event id (the query
file is absent from the snapshot; spec section 6 lists portal and message
lookups by hub ids on the persisted record surface). -/
def GetByMXID (db : List DBMessage) (mxid : String) : Option DBMessage :=
  db.find? (fun m => m.mxid == mxid)

/-- The hub-side owner of a remote session (internal.User), reduced to the
fields canBridgeFrom and HandleMatrixMessage consume. -/
structure MUser where
  uid : UID
  loggedIn : Bool
deriving DecidableEq, Repr

/-- The parsed content of a hub message event (event.MessageEventContent on
the inbound side), reduced to the fields HandleMatrixMessage consumes. -/
structure MatrixEventContent where
  msgType : String
  body : String
  format : String := ""
  formattedBody : String := ""
  mentions : List String := []
  replyTo : String := ""
deriving DecidableEq, Repr

/-- A hub room event as delivered to the portal (event.Event); content is
none when the payload does not parse as a message content. -/
structure MatrixEvent where
  id : String
  typ : String
  timestamp : Int
  content : Option MatrixEventContent
deriving DecidableEq, Repr

/-- Environment of the hub-to-remote path: the portal environment plus the
formatter, media pipeline and agent-send oracles it needs. -/
structure MatrixEnv extends PortalEnv where
  botIntent : Intent
  /-- Formatter.ParseMatrix: formatted body and explicit mentions to remote
  markup plus mentioned uids. -/
  parseMatrix : String → List String → String × List String
  /-- Puppet display name for a remote user id, none when no puppet. -/
  puppetDisplayname : String → Option String
  /-- Client.GetUserInfo reduced to the display name, none on failure. -/
  userInfoName : String → Option String
  /-- preprocessMatrixMedia (portal.go line 1321): media download plus
  decrypt; file name and bytes, or the failure description. -/
  preprocessMedia : MatrixEventContent → Except String (String × List Nat)
  /-- util.ogg2mp3: external ffmpeg transcode, none on failure. -/
  oggToMp3 : List Nat → Option (List Nat)
  /-- The random VOICE hex name generated for transcoded audio. -/
  voiceName : String
  /-- Client.SendEvent outcome: some error message, or none on success. -/
  sendEvent : WEvent → Option String

/-- Portal.replyFailure (portal.go line 1483): post a notice replying to the
offending hub event, with the bot intent unless the room is an unencrypted
private chat. -/
def replyFailure (env : MatrixEnv) (p : PortalState) (sender : MUser)
    (evt : MatrixEvent) (text : String) : PortalState :=
  let intent? : Option Intent :=
    if p.IsPrivateChat && !p.encrypted then
      match env.puppetIntent sender.uid with
      | none => none
      | some i =>
        if !i.isCustomPuppet && sender.uid.uin == p.key.receiver.uin then
          some (env.mainIntent p.key)
        else some i
    else some env.botIntent
  match intent? with
  | none => p
  | some intent =>
    let content : MessageEventContent :=
      { msgType := MsgNotice, body := text, replyToMXID := evt.id }
    (sendMessageP env.toPortalEnv p intent EventMessage content 0).1

/-- Portal.canBridgeFrom (portal.go line 1515), as a boolean: false stands
for the errUserNotLoggedIn and errDifferentUser returns. -/
def canBridgeFrom (p : PortalState) (sender : MUser) : Bool :=
  if !sender.loggedIn then false
  else if p.IsPrivateChat && sender.uid.uin != p.key.receiver.uin then false
  else true

/-- Portal.HandleMatrixMessage (portal.go line 1351): permission check,
reply-mention resolution, per-kind conversion to a remote event, submission
through the client facade, and on success the record of the synthetic
FAKE-prefixed local message id. -/
def HandleMatrixMessage (env : MatrixEnv) (p : PortalState) (sender : MUser)
    (evt : MatrixEvent) : PortalState :=
  if !canBridgeFrom p sender then p
  else
    match evt.content with
    | none =>
        replyFailure env p sender evt "Failed to parse matrix message content"
    | some content0 =>
      let target := p.key.uid.uin
      let replyToID := content0.replyTo
      let replyMention : String :=
        if replyToID.length > 0 then
          match GetByMXID p.db replyToID with
          | some replyToMsg =>
              if !replyToMsg.isFakeMsgID && replyToMsg.msgType == MsgTypeNormal
              then replyToMsg.sender.uin else ""
          | none => ""
        else ""
      let content :=
        if evt.typ == EventSticker then { content0 with msgType := MsgImage }
        else content0
      let base : WEvent :=
        { id := evt.id, timestamp := evt.timestamp,
          fromUser := ⟨sender.uid.uin⟩, chatID := target,
          typ := .text, content := "", mentions := [], reply := none,
          data := .nothing }
      let msg? : Except (Option String) WEvent :=
        if content.msgType == MsgText || content.msgType == MsgEmote then
          let parsed :=
            if content.format == FormatHTML then
              let pm := env.parseMatrix content.formattedBody content.mentions
              let formatted := pm.2.foldl
                (fun acc mention =>
                  let groupNickname := env.groupNickname p.key.uid.uin mention
                  if groupNickname.length > 0 then
                    acc.replace ("@" ++ mention) ("@" ++ groupNickname)
                  else
                    match env.puppetDisplayname mention with
                    | some dn => acc.replace ("@" ++ mention) ("@" ++ dn)
                    | none => acc)
                pm.1
              (formatted, pm.2)
            else (content.body, [])
          let withReply :=
            if replyMention.length > 0 then
              match env.userInfoName replyMention with
              | some nm =>
                  ("@" ++ nm ++ " " ++ parsed.1, replyMention :: parsed.2)
              | none => parsed
            else parsed
          let text :=
            if content.msgType == MsgEmote then "/me " ++ withReply.1
            else withReply.1
          .ok { base with typ := .text, content := text,
                          mentions := withReply.2 }
        else if content.msgType == MsgImage || content.msgType == MsgAudio
            || content.msgType == MsgVideo || content.msgType == MsgFile then
          match env.preprocessMedia content with
          | .error e =>
              .error (some ("Failed to process matrix media: " ++ e))
          | .ok (name, data) =>
            if content.msgType == MsgImage then
              .ok { base with typ := ToEventType content.msgType,
                              data := .photos [⟨name, "", data⟩] }
            else if content.msgType == MsgAudio then
              match env.oggToMp3 data with
              | none => .error (some "Failed to convert audio to mp3")
              | some mp3 =>
                  .ok { base with typ := .file,
                                  data := .blob ⟨env.voiceName, "", mp3⟩ }
            else
              .ok { base with typ := ToEventType content.msgType,
                              data := .blob ⟨name, "", data⟩ }
        else .error (some (content.msgType ++ " not support"))
      match msg? with
      | .error notice? =>
          match notice? with
          | some notice => replyFailure env p sender evt notice
          | none => p
      | .ok msg =>
        let msgID := "FAKE::" ++ toString evt.timestamp
        match env.sendEvent msg with
        | some e => replyFailure env p sender evt e
        | none =>
            finishHandling p none msgID evt.timestamp sender.uid evt.id
              MsgTypeNormal MsgNoError

/- Transport multiplexer (internal/wechat/wechatservice.go). -/

/-- wechat command constants (the command half of a WebsocketMessage). -/
def CommandResponse : String := "response"
def CommandError : String := "error"
def CommandPing : String := "ping"
def CommandClosed : String := "__websocket_closed"

/-- A frame read off the websocket, reduced to the WebsocketCommand half
that the response dispatch consumes (request id, command, raw data). -/
structure Frame where
  reqID : Int
  command : String
  data : String
deriving DecidableEq, Repr

/-- WechatService state: the request-id counter (an int32 in the source),
the request-waiter map, and the per-request response channels (buffer
capacity one), identified by allocation order. -/
structure ServiceState where
  wsRequestID : Int := 0
  websocketRequests : List (Int × Nat) := []
  chans : List (Nat × Option Frame) := []
  nextChan : Nat := 0
deriving DecidableEq, Repr

/-- Lookup in the request-waiter map (Go map read; the list is keyed with
newest insertion first, matching map overwrite semantics). -/
def lookupReq (m : List (Int × Nat)) (reqID : Int) : Option Nat :=
  (m.find? (fun e => e.1 == reqID)).map (fun e => e.2)

/-- Read the buffer of channel c: none when the channel does not exist,
some the buffered frame slot otherwise. -/
def chanGet (cs : List (Nat × Option Frame)) (c : Nat) : Option (Option Frame) :=
  (cs.find? (fun e => e.1 == c)).map (fun e => e.2)

/-- Deliver a frame into the buffer of channel c. -/
def chanPut (cs : List (Nat × Option Frame)) (c : Nat) (f : Frame) :
    List (Nat × Option Frame) :=
  cs.map (fun e => if e.1 == c then (e.1, some f) else e)

/-- atomic.AddInt32 on the int32 request counter, with two-complement
wraparound. -/
def wrap32 (x : Int) : Int := (x + 2 ^ 31) % 2 ^ 32 - 2 ^ 31

/-- The request id the next RequestWebsocket call will allocate. -/
def nextReqID (st : ServiceState) : Int := wrap32 (st.wsRequestID + 1)

/-- One iteration of the ServeHTTP read loop for a frame already read
(wechatservice.go lines 101-125): an empty command is an unsolicited event,
routed to the client handler off the read path (it does not touch the
request-waiter state); ping does nothing; response and error commands are
matched against the waiter map by request id and delivered non-blockingly,
dropped with a log when the id is unknown or the buffer busy. -/
def serveLoopStep (st : ServiceState) (msg : Frame) : ServiceState :=
  if msg.command == "" then st
  else if msg.command == CommandPing then st
  else if msg.command == CommandResponse || msg.command == CommandError then
    match lookupReq st.websocketRequests msg.reqID with
    | none => st
    | some ch =>
      match chanGet st.chans ch with
      | some none => { st with chans := chanPut st.chans ch msg }
      | _ => st
  else st

/-- WechatService.addWebsocketResponseWaiter (wechatservice.go line 229). -/
def addWebsocketResponseWaiter (st : ServiceState) (reqID : Int) (ch : Nat) :
    ServiceState :=
  { st with websocketRequests := (reqID, ch) :: st.websocketRequests }

/-- WechatService.removeWebsocketResponseWaiter (wechatservice.go line 235):
delete the map entry when it still belongs to this waiter, then close the
waiter channel (modelled by discarding it). -/
def removeWebsocketResponseWaiter (st : ServiceState) (reqID : Int) (ch : Nat) :
    ServiceState :=
  let st1 :=
    match lookupReq st.websocketRequests reqID with
    | some existing =>
      if existing == ch then
        { st with websocketRequests :=
            st.websocketRequests.filter (fun e => !(e.1 == reqID)) }
      else st
    | none => st
  { st1 with chans := st1.chans.filter (fun e => !(e.1 == ch)) }

/-- The outcome of a RequestWebsocket call as seen by its caller
(wechatservice.go lines 175-211): an immediate SendWebsocket error, the
ErrWebsocketClosed return, an agent error response, a decoded response, or
the context timeout. -/
inductive RequestResult
  | sendFailed (e : String)
  | wsClosed
  | errorResp (f : Frame)
  | success (f : Frame)
  | timedOut
deriving DecidableEq, Repr

/-- WechatService.RequestWebsocket (wechatservice.go line 175): allocate a
fresh id, register a capacity-one response channel, send the framed
request, then select between the response channel and the context.
sendErr is the SendWebsocket outcome; arrivals are the response frames the
reader dispatches while this call is waiting (any order, any ids);
respFirst resolves the select race, stating whether a buffered response
was picked before the context fired. The deferred
removeWebsocketResponseWaiter runs on every path. -/
def requestWebsocket (st : ServiceState) (sendErr : Option String)
    (arrivals : List Frame) (respFirst : Bool) :
    ServiceState × RequestResult :=
  let reqID := nextReqID st
  let ch := st.nextChan
  let st1 : ServiceState :=
    { st with wsRequestID := reqID, nextChan := ch + 1,
              chans := st.chans ++ [(ch, none)] }
  let st2 := addWebsocketResponseWaiter st1 reqID ch
  match sendErr with
  | some e => (removeWebsocketResponseWaiter st2 reqID ch, .sendFailed e)
  | none =>
    let st3 := arrivals.foldl serveLoopStep st2
    match chanGet st3.chans ch, respFirst with
    | some (some resp), true =>
        let res :=
          if resp.command == CommandClosed then RequestResult.wsClosed
          else if resp.command == CommandError then RequestResult.errorResp resp
          else RequestResult.success resp
        (removeWebsocketResponseWaiter st3 reqID ch, res)
    | _, _ => (removeWebsocketResponseWaiter st3 reqID ch, .timedOut)

/-- Well-formedness of the multiplexer state: the id the next call will
allocate is not an outstanding registration (spec section 3, In-flight
Request: ids unique while outstanding), and every registered waiter channel
and channel slot was allocated before the next free slot. -/
structure WFService (st : ServiceState) : Prop where
  freshID : lookupReq st.websocketRequests (nextReqID st) = none
  chansBound : ∀ e ∈ st.websocketRequests, e.2 < st.nextChan
  chansAll : ∀ e ∈ st.chans, e.1 < st.nextChan

/- Remote client facade (internal/wechat/client.go). -/

/-- wechat.UserInfo (protocol.go line 436). -/
structure UserInfo where
  id : String
  name : String
  avatar : String := ""
  remark : String := ""
deriving DecidableEq, Repr

/-- wechat.GroupInfo (protocol.go line 443). -/
structure GroupInfo where
  id : String
  name : String
  avatar : String := ""
  notice : String := ""
  members : List String := []
deriving DecidableEq, Repr

/-- The error-or-value outcome of WechatService.RequestWebsocket as consumed
by a facade method (client.go): the transport outcomes become errors, an
agent error response becomes a typed error, and a successful response is
decoded by the per-call json decoder. -/
def requestAndDecode {α : Type} (st : ServiceState) (sendErr : Option String)
    (arrivals : List Frame) (respFirst : Bool) (decode : String → Option α) :
    Except String α :=
  match (requestWebsocket st sendErr arrivals respFirst).2 with
  | .sendFailed e => .error e
  | .wsClosed => .error "websocket closed before response received"
  | .timedOut => .error "context deadline exceeded"
  | .errorResp f => .error ("error response: " ++ f.data)
  | .success f =>
    match decode f.data with
    | none => .error "failed to parse response JSON"
    | some a => .ok a

/-- The inputs of one facade call: the service state and the transport
behaviour the call experiences. -/
structure ClientCall where
  st : ServiceState
  sendErr : Option String := none
  arrivals : List Frame := []
  respFirst : Bool := true

/-- WechatClient.IsLoggedIn (client.go line 51): false on any error. -/
def clientIsLoggedIn (c : ClientCall) (decode : String → Option Bool) : Bool :=
  match requestAndDecode c.st c.sendErr c.arrivals c.respFirst decode with
  | .error _ => false
  | .ok status => status

/-- WechatClient.GetSelf (client.go line 69): nil on any error. -/
def clientGetSelf (c : ClientCall) (decode : String → Option UserInfo) :
    Option UserInfo :=
  match requestAndDecode c.st c.sendErr c.arrivals c.respFirst decode with
  | .error _ => none
  | .ok info => some info

/-- WechatClient.GetUserInfo (client.go line 87): nil on any error. -/
def clientGetUserInfo (c : ClientCall) (wxid : String)
    (decode : String → Option UserInfo) : Option UserInfo :=
  match wxid, requestAndDecode c.st c.sendErr c.arrivals c.respFirst decode with
  | _, .error _ => none
  | _, .ok info => some info

/-- WechatClient.GetGroupInfo (client.go line 106): nil on any error. -/
def clientGetGroupInfo (c : ClientCall) (wxid : String)
    (decode : String → Option GroupInfo) : Option GroupInfo :=
  match wxid, requestAndDecode c.st c.sendErr c.arrivals c.respFirst decode with
  | _, .error _ => none
  | _, .ok info => some info

/-- WechatClient.GetGroupMembers (client.go line 125): nil on any error. -/
def clientGetGroupMembers (c : ClientCall) (wxid : String)
    (decode : String → Option (List String)) : Option (List String) :=
  match wxid, requestAndDecode c.st c.sendErr c.arrivals c.respFirst decode with
  | _, .error _ => none
  | _, .ok members => some members

/-- WechatClient.GetFriendList (client.go line 144): the empty list on any
error. -/
def clientGetFriendList (c : ClientCall)
    (decode : String → Option (List UserInfo)) : List UserInfo :=
  match requestAndDecode c.st c.sendErr c.arrivals c.respFirst decode with
  | .error _ => []
  | .ok friends => friends

/-- WechatClient.GetGroupList (client.go line 162): the empty list on any
error. -/
def clientGetGroupList (c : ClientCall)
    (decode : String → Option (List GroupInfo)) : List GroupInfo :=
  match requestAndDecode c.st c.sendErr c.arrivals c.respFirst decode with
  | .error _ => []
  | .ok groups => groups

/- Concrete sample inputs used by the closed theorems and witnesses below. -/

/-- A group-chat portal key. -/
def sampleKey : PortalKey := ⟨NewGroupUID "group7", NewUserUID "alice"⟩

/-- A group portal that already has a hub room. -/
def samplePortal : PortalState := { key := sampleKey, mxid := "!room:hs" }

/-- The portal after markHandled records remote message 42 as handled. -/
def sampleMarked : PortalState :=
  markHandled samplePortal none "42" 1000 (NewUserUID "bob") "$evt1:hs"
    true true MsgTypeNormal MsgNoError

/-- A schedule in which both CreateMatrixRoom callers evaluate the room-id
check before either reaches the creation body: caller 0 checks, caller 1
checks, caller 0 locks and creates, caller 1 locks and creates. -/
def cmrRaceSched : List (Fin 2 × String) :=
  [(0, ""), (1, ""), (0, ""), (0, "!roomA:hs"), (1, ""), (1, "!roomB:hs")]

/-- A schedule in which caller 1 only evaluates the check after caller 0
has completed its creation. -/
def cmrLateSched : List (Fin 2 × String) :=
  [(0, ""), (0, ""), (0, "!roomA:hs"), (1, ""), (1, "")]

/-- A portal environment in which every external call succeeds. -/
def okEnv : PortalEnv where
  cfg := ⟨true⟩
  puppetIntent := fun u => some ⟨"@wechat_" ++ u.uin ++ ":hs", false⟩
  send := fun _ _ _ _ => some "$sent:hs"
  redact := fun _ _ _ => .ok
  mainIntent := fun _ => ⟨"@bot:hs", false⟩
  replaceEmotion := fun s => s
  silkToOgg := fun b => some b
  mimeDetect := fun _ => "application/octet-stream"
  upload := fun _ _ => .ok "mxc://hs/file1"
  matrixInfo := fun _ u => ("@wechat_" ++ u.uin ++ ":hs", u.uin)
  groupNickname := fun _ _ => ""
  renderMarkdown := fun s => s
  createRoom := fun _ => .ok "!room:hs"

/-- okEnv with a failing room creation. -/
def createFailEnv : PortalEnv :=
  { okEnv with createRoom := fun _ => .error "M_UNKNOWN" }

/-- okEnv with an upload the homeserver rejects as too large. -/
def tooLargeEnv : PortalEnv :=
  { okEnv with upload := fun _ _ => .tooLarge }

/-- A portal that has no hub room yet. -/
def pNoRoom : PortalState := { key := sampleKey }

/-- A plain remote text event. -/
def sampleTextEvent : WEvent :=
  ⟨"1001", 1700, ⟨"bob"⟩, "group7", .text, "hello", [], none, .nothing⟩

/-- A remote video event carrying a 3-byte blob. -/
def sampleVideoEvent : WEvent :=
  ⟨"1002", 1701, ⟨"bob"⟩, "group7", .video, "", [], none,
    .blob ⟨"clip.mp4", "video/mp4", [0, 1, 2]⟩⟩

/-- A facade call whose SendWebsocket fails: no connection. -/
def cFail : ClientCall := { st := {}, sendErr := some "websocket not connected" }

/-- The notice content produced when the homeserver rejects an upload as
too large. -/
def mediaTooLargeNotice : MessageEventContent :=
  { msgType := MsgNotice,
    body := "Failed to bridge media: homeserver rejected too large file" }

/-- A previously bridged message record for remote id 1001. -/
def sampleRecord : DBMessage :=
  ⟨sampleKey, "1001", "$orig:hs", NewUserUID "bob", 1700, true,
    MsgTypeNormal, MsgNoError⟩

/-- The sample portal after message 1001 has been bridged. -/
def sampleBridged : PortalState :=
  { samplePortal with db := [sampleRecord] }

/-- A revocation referencing remote id 1001. -/
def sampleRevoke : WEvent :=
  ⟨"1001", 1800, ⟨"bob"⟩, "group7", .revoke, "bob recalled a message",
    [], none, .nothing⟩

/-- okEnv with redactions disabled in the bridge configuration. -/
def noRedactEnv : PortalEnv := { okEnv with cfg := ⟨false⟩ }

/-- A private-chat portal key: remote contact carol, hub owner alice. -/
def pmKey : PortalKey := ⟨NewUserUID "carol", NewUserUID "alice"⟩

/-- The private portal with its hub room. -/
def pmPortal : PortalState := { key := pmKey, mxid := "!pm:hs" }

/-- The hub user alice with an active remote session. -/
def aliceUser : MUser := ⟨NewUserUID "alice", true⟩

/-- A hub text message from alice at timestamp 1000. -/
def aliceEvent : MatrixEvent :=
  ⟨"$alice1:hs", EventMessage, 1000, some { msgType := MsgText, body := "hi" }⟩

/-- A hub-to-remote environment in which every call succeeds and puppets
are double-puppeted (so the private-chat echo filter does not apply). -/
def mEnv : MatrixEnv where
  toPortalEnv :=
    { okEnv with puppetIntent :=
        fun u => some ⟨"@wechat_" ++ u.uin ++ ":hs", true⟩ }
  botIntent := ⟨"@bot:hs", false⟩
  parseMatrix := fun s _ => (s, [])
  puppetDisplayname := fun _ => none
  userInfoName := fun _ => none
  preprocessMedia := fun _ => .error "unreached"
  oggToMp3 := fun b => some b
  voiceName := "VOICE_00000000.mp3"
  sendEvent := fun _ => none

/-- The portal state after alice's message was submitted to the agent. -/
def pmAfterSend : PortalState :=
  HandleMatrixMessage mEnv pmPortal aliceUser aliceEvent

/-- The remote echo of that message, carrying the remote-issued id 777. -/
def echoEvent : WEvent :=
  ⟨"777", 1005, ⟨"alice"⟩, "carol", .text, "hi", [], none, .nothing⟩

/-- The portal state after the echo came back on the remote-to-hub path. -/
def pmAfterEcho : PortalState :=
  handleWechatEvent mEnv.toPortalEnv pmAfterSend echoEvent

/- Theorems. -/

/-- Helper: the scan loop of isRecentlyHandled starts at i = start and its
guard i != start is evaluated before the first iteration, so the loop body
never runs and the scan yields false. -/
theorem isRecentlyHandledScan_at_start (buf : List (String × String))
    (start : Nat) (looking : String × String) (fuel : Nat) :
    isRecentlyHandledScan buf start looking start (fuel + 1) = false := by
  simp [isRecentlyHandledScan]

/-- Helper: isRecentlyHandled reports false for every portal state and
every id. -/
theorem isRecentlyHandled_false (p : PortalState) (idv err : String) :
    isRecentlyHandled p idv err = false := by
  show isRecentlyHandledScan _ _ _ _ (255 + 1) = false
  exact isRecentlyHandledScan_at_start _ _ _ _

/-- C7: the claim says an id recorded among the last 100 handled messages is
reported as recently handled by isRecentlyHandled. The code disagrees: the
loop in portal.go line 494 is for i := start; i != start; decrement, whose
guard fails before the first iteration, so the lookup reports false for
every id, including one just recorded by markHandled into the ring buffer.
Only the second half of the claim (an id not among the last 100 reports
false) holds. -/
theorem recentlyHandled_lookup_never_hits :
    (∀ p idv err, isRecentlyHandled p idv err = false) ∧
    sampleMarked.recentlyHandled.getD 0 ("", "") = ("42", MsgNoError) ∧
    isRecentlyHandled sampleMarked "42" MsgNoError = false :=
  ⟨fun p idv err => isRecentlyHandled_false p idv err, by decide,
    isRecentlyHandled_false sampleMarked "42" MsgNoError⟩

/-- C2: the claim says concurrent CreateMatrixRoom callers create exactly
one room, the loser observing the populated room id. The code evaluates the
room-id check (portal.go line 1006) before acquiring roomCreateLock (line
1010) and never re-checks under the lock, so two callers that both pass the
check before either creates each run the creation body: the race schedule
yields two CreateRoom calls. A caller whose check runs after a completed
creation does return without creating (the late schedule yields one). -/
theorem createMatrixRoom_check_outside_lock :
    (cmrRun cmrInit cmrRaceSched).createdRooms = ["!roomA:hs", "!roomB:hs"] ∧
    (cmrRun cmrInit cmrRaceSched).loc 0 = .done true ∧
    (cmrRun cmrInit cmrRaceSched).loc 1 = .done true ∧
    (cmrRun cmrInit cmrLateSched).createdRooms = ["!roomA:hs"] ∧
    (cmrRun cmrInit cmrLateSched).loc 1 = .done false := by
  refine ⟨?_, ?_, ?_, ?_, ?_⟩ <;> decide

/-- C10: when a queued remote message arrives for a portal with no hub room
and room creation fails, handleWechatMessageLoopItem logs and returns: the
portal state is unchanged (nothing bridged, nothing re-queued) and the
message loop processes the remaining queue exactly as if the dropped item
had never arrived. -/
theorem failedRoomCreation_drops_message (env : PortalEnv) (p : PortalState)
    (item : PortalMessageItem) (e : String)
    (hmx : p.mxid = "")
    (hcreate : env.createRoom p.key = Except.error e) :
    handleWechatMessageLoopItem env p item = p ∧
    ∀ rest, runWechatMessageLoop env p (item :: rest) =
      runWechatMessageLoop env p rest := by
  have hdrop : handleWechatMessageLoopItem env p item = p := by
    unfold handleWechatMessageLoopItem CreateMatrixRoomSeq
    rw [hmx, hcreate]
    simp
  refine ⟨hdrop, fun rest => ?_⟩
  show List.foldl _ _ _ = _
  rw [List.foldl_cons, hdrop]
  rfl

/-- Helper: a record at the head of the table is found under its own key. -/
theorem GetByMsgID_cons_self (db : List DBMessage) (m : DBMessage) :
    GetByMsgID (m :: db) m.chat m.msgID = some m := by
  simp [GetByMsgID, List.find?]

/-- Helper: the text converter keeps the resolved intent. -/
theorem convertWechatText_intent (env : PortalEnv) (p : PortalState)
    (m : WEvent) (i : Intent) : (convertWechatText env p m i).intent = i := rfl

/-- Helper: the text converter emits an m.room.message event. -/
theorem convertWechatText_typ (env : PortalEnv) (p : PortalState)
    (m : WEvent) (i : Intent) :
    (convertWechatText env p m i).typ = EventMessage := rfl

/-- Helper: the text converter carries no conversion error marker. -/
theorem convertWechatText_convError (env : PortalEnv) (p : PortalState)
    (m : WEvent) (i : Intent) :
    (convertWechatText env p m i).convError = MsgNoError := rfl

/-- Helper: markHandled never touches the hub-room message trace. -/
theorem markHandled_hubMessages (p : PortalState) (ex : Option DBMessage)
    (mid : String) (ts : Int) (s : UID) (mx : String) (b r : Bool)
    (mt et : String) :
    (markHandled p ex mid ts s mx b r mt et).hubMessages = p.hubMessages := by
  unfold markHandled
  cases ex <;> dsimp <;> split <;> rfl

/-- Helper: markHandled never touches the room id. -/
theorem markHandled_mxid (p : PortalState) (ex : Option DBMessage)
    (mid : String) (ts : Int) (s : UID) (mx : String) (b r : Bool)
    (mt et : String) :
    (markHandled p ex mid ts s mx b r mt et).mxid = p.mxid := by
  unfold markHandled
  cases ex <;> dsimp <;> split <;> rfl

/-- Helper: markHandled never touches the portal key. -/
theorem markHandled_key (p : PortalState) (ex : Option DBMessage)
    (mid : String) (ts : Int) (s : UID) (mx : String) (b r : Bool)
    (mt et : String) :
    (markHandled p ex mid ts s mx b r mt et).key = p.key := by
  unfold markHandled
  cases ex <;> dsimp <;> split <;> rfl

/-- Helper: markHandled never touches the redaction trace. -/
theorem markHandled_redactCalls (p : PortalState) (ex : Option DBMessage)
    (mid : String) (ts : Int) (s : UID) (mx : String) (b r : Bool)
    (mt et : String) :
    (markHandled p ex mid ts s mx b r mt et).redactCalls = p.redactCalls := by
  unfold markHandled
  cases ex <;> dsimp <;> split <;> rfl

/-- Helper: with no prior record, markHandled inserts the fresh record at
the head of the table. -/
theorem markHandled_db_insert (p : PortalState) (mid : String) (ts : Int)
    (s : UID) (mx : String) (b r : Bool) (mt et : String) :
    (markHandled p none mid ts s mx b r mt et).db
      = ⟨p.key, mid, mx, s, ts, b, mt, et⟩ :: p.db := by
  unfold markHandled
  dsimp
  split <;> rfl

/-- Helper: an event whose id is already recorded for the portal key and
which is not a revocation is dropped with the state unchanged
(handleWechatEvent step 1, portal.go lines 275-283). -/
theorem handleWechatEvent_drop_dup (env : PortalEnv) (q : PortalState)
    (m : WEvent)
    (hmx : (q.mxid.length == 0) = false)
    (hfound : (GetByMsgID q.db q.key m.id).isSome = true)
    (hrev : (m.typ == WEventType.revoke) = false) :
    handleWechatEvent env q m = q := by
  unfold handleWechatEvent
  rw [hmx]
  obtain ⟨r, hr⟩ := Option.isSome_iff_exists.mp hfound
  simp only [Bool.false_eq_true, if_false, hr, hrev]

/-- C9: every remote-client facade method degrades to its typed failure
value (false, nil, or the empty list) whenever the underlying
RequestWebsocket call yields an error; being total functions into those
types, none of them propagates the transport error or a panic to its
caller. -/
theorem clientFacade_degrades
    (c1 c2 c3 c4 c5 c6 c7 : ClientCall) (wx1 wx2 wx3 : String)
    (d1 : String → Option Bool) (d2 d3 : String → Option UserInfo)
    (d4 : String → Option GroupInfo) (d5 : String → Option (List String))
    (d6 : String → Option (List UserInfo))
    (d7 : String → Option (List GroupInfo))
    (e1 e2 e3 e4 e5 e6 e7 : String)
    (h1 : requestAndDecode c1.st c1.sendErr c1.arrivals c1.respFirst d1
      = .error e1)
    (h2 : requestAndDecode c2.st c2.sendErr c2.arrivals c2.respFirst d2
      = .error e2)
    (h3 : requestAndDecode c3.st c3.sendErr c3.arrivals c3.respFirst d3
      = .error e3)
    (h4 : requestAndDecode c4.st c4.sendErr c4.arrivals c4.respFirst d4
      = .error e4)
    (h5 : requestAndDecode c5.st c5.sendErr c5.arrivals c5.respFirst d5
      = .error e5)
    (h6 : requestAndDecode c6.st c6.sendErr c6.arrivals c6.respFirst d6
      = .error e6)
    (h7 : requestAndDecode c7.st c7.sendErr c7.arrivals c7.respFirst d7
      = .error e7) :
    clientIsLoggedIn c1 d1 = false ∧
    clientGetSelf c2 d2 = none ∧
    clientGetUserInfo c3 wx1 d3 = none ∧
    clientGetGroupInfo c4 wx2 d4 = none ∧
    clientGetGroupMembers c5 wx3 d5 = none ∧
    clientGetFriendList c6 d6 = [] ∧
    clientGetGroupList c7 d7 = [] := by
  unfold clientIsLoggedIn clientGetSelf clientGetUserInfo clientGetGroupInfo
    clientGetGroupMembers clientGetFriendList clientGetGroupList
  rw [h1, h2, h3, h4, h5, h6, h7]
  simp

/-- C1: remote-to-hub dedup idempotence. Submitting the same (portal key,
remote id) text event twice, where the first delivery was bridged (intent
resolved, double-puppet check passed, hub send succeeded), yields exactly
one hub message: the first run appends it and records the id, and the
second run finds the record in the step-1 lookup and returns the state
unchanged, sending nothing. -/
theorem dedup_idempotent (env : PortalEnv) (p : PortalState) (msg : WEvent)
    (intent : Intent) (eid : String)
    (hmx : p.mxid.length ≠ 0)
    (htyp : msg.typ = .text)
    (hdup : GetByMsgID p.db p.key msg.id = none)
    (hint : env.puppetIntent (NewUserUID msg.fromUser.id) = some intent)
    (hpb : (!intent.isCustomPuppet && p.IsPrivateChat
        && (NewUserUID msg.fromUser.id).uin == p.key.receiver.uin) = false)
    (hreply : msg.reply = none)
    (hsend : env.send intent EventMessage
        (convertWechatText env p msg intent).content msg.timestamp = some eid)
    (heid : eid.length ≠ 0) :
    (handleWechatEvent env p msg).hubMessages.length
      = p.hubMessages.length + 1 ∧
    handleWechatEvent env (handleWechatEvent env p msg) msg
      = handleWechatEvent env p msg := by
  obtain ⟨mid, mts, mfrom, mchat, mtyp, mcontent, mment, mreply, mdata⟩ := msg
  simp only at htyp hreply
  subst htyp
  subst hreply
  have hmx0 : (p.mxid.length == 0) = false := by simpa using hmx
  have heid0 : (eid.length != 0) = true := by simpa using heid
  have h1 : handleWechatEvent env p
      ⟨mid, mts, mfrom, mchat, .text, mcontent, mment, none, mdata⟩
      = finishHandling
          { p with hubMessages := p.hubMessages ++
              [⟨intent.userID, EventMessage,
                (convertWechatText env p
                  ⟨mid, mts, mfrom, mchat, .text, mcontent, mment, none, mdata⟩
                  intent).content, mts, eid⟩] }
          none mid mts (NewUserUID mfrom.id) eid MsgTypeNormal
          (convertWechatText env p
            ⟨mid, mts, mfrom, mchat, .text, mcontent, mment, none, mdata⟩
            intent).convError := by
    unfold handleWechatEvent
    simp only [hmx0, Bool.false_eq_true, if_false, hdup, hint, hpb,
      convertWechatText_intent, convertWechatText_typ,
      sendMessageP, hsend, heid0, if_true]
  rw [h1]
  unfold finishHandling
  refine ⟨?_, ?_⟩
  · rw [markHandled_hubMessages]
    simp
  · apply handleWechatEvent_drop_dup
    · rw [markHandled_mxid]
      exact hmx0
    · rw [markHandled_key, markHandled_db_insert]
      simp [GetByMsgID, List.find?]
    · rfl

/-- C6: an inbound media event whose upload the homeserver rejects as too
large produces no media message in the hub room: the conversion degrades to
a notice whose body is Failed to bridge media: homeserver rejected too
large file, that notice is the only message appended, and the loop-item
handler returns normally, so the consumer loop processes the rest of the
queue unchanged. -/
theorem oversizedMedia_degrades (env : PortalEnv) (p : PortalState)
    (msg : WEvent) (intent : Intent) (b : BlobData) (eid : String)
    (hmx : (p.mxid.length == 0) = false)
    (htyp : msg.typ = .video)
    (hdata : msg.data = .blob b)
    (hdup : GetByMsgID p.db p.key msg.id = none)
    (hint : env.puppetIntent (NewUserUID msg.fromUser.id) = some intent)
    (hpb : (!intent.isCustomPuppet && p.IsPrivateChat
        && (NewUserUID msg.fromUser.id).uin == p.key.receiver.uin) = false)
    (hreply : msg.reply = none)
    (hup : env.upload intent b.binary = .tooLarge)
    (hsend : env.send intent EventMessage mediaTooLargeNotice msg.timestamp
      = some eid)
    (heid : (eid.length != 0) = true) :
    (handleWechatMessageLoopItem env p (.event msg)).hubMessages
      = p.hubMessages
        ++ [⟨intent.userID, EventMessage, mediaTooLargeNotice,
             msg.timestamp, eid⟩] ∧
    ∀ rest, runWechatMessageLoop env p (.event msg :: rest)
      = runWechatMessageLoop env
          (handleWechatMessageLoopItem env p (.event msg)) rest := by
  obtain ⟨mid, mts, mfrom, mchat, mtyp, mcontent, mment, mreply, mdata⟩ := msg
  simp only at htyp hreply hdata
  subst htyp
  subst hreply
  subst hdata
  constructor
  · unfold handleWechatMessageLoopItem
    rw [hmx]
    unfold handleWechatEvent
    simp only at hdup hint hpb hsend
    simp [hmx, hdup, hint, hpb, convertWechatMedia, hup,
      makeMediaBridgeFailureMessage, sendMessageP, hsend, heid,
      finishHandling, markHandled_hubMessages, mediaTooLargeNotice]
    have hsend2 : env.send intent EventMessage
        { msgType := MsgNotice,
          body := "Failed to bridge media: homeserver rejected too large file" }
        mts = some eid := hsend
    have heid2 : eid.length ≠ 0 := by simpa using heid
    simp [hsend2, heid2, markHandled_hubMessages]
  · intro rest
    rfl

/-- Witness for C6 at a concrete video event rejected as too large. -/
theorem oversizedMedia_degrades_witness :
    (handleWechatMessageLoopItem tooLargeEnv samplePortal
        (.event sampleVideoEvent)).hubMessages
      = samplePortal.hubMessages
        ++ [⟨"@wechat_bob:hs", EventMessage, mediaTooLargeNotice, 1701,
             "$sent:hs"⟩] ∧
    ∀ rest, runWechatMessageLoop tooLargeEnv samplePortal
        (.event sampleVideoEvent :: rest)
      = runWechatMessageLoop tooLargeEnv
          (handleWechatMessageLoopItem tooLargeEnv samplePortal
            (.event sampleVideoEvent)) rest :=
  oversizedMedia_degrades tooLargeEnv samplePortal sampleVideoEvent
    ⟨"@wechat_bob:hs", false⟩ ⟨"clip.mp4", "video/mp4", [0, 1, 2]⟩ "$sent:hs"
    (by decide) rfl rfl rfl rfl (by decide) rfl rfl rfl (by decide)

/-- C5: revocation override. For a previously bridged message (a record
with a real hub event id exists under the revoked id), a revocation event
referencing it yields, when redactions are allowed, exactly one RedactEvent
call targeting that hub event and no new hub message; when redactions are
disabled, a synthetic notice (replying to the bridged event, never a normal
message) is posted instead and no redaction is issued. -/
theorem revocation_override
    (env1 : PortalEnv) (p1 : PortalState) (rev1 : WEvent) (m1 : DBMessage)
    (intent1 : Intent)
    (env2 : PortalEnv) (p2 : PortalState) (rev2 : WEvent) (m2 : DBMessage)
    (intent2 : Intent) (eid2 : String)
    (ha : env1.cfg.allowRedaction = true)
    (hmx1 : (p1.mxid.length == 0) = false)
    (htyp1 : rev1.typ = .revoke)
    (hrec1 : GetByMsgID p1.db p1.key rev1.id = some m1)
    (hfake1 : m1.isFakeMXID = false)
    (hint1 : env1.puppetIntent (NewUserUID rev1.fromUser.id) = some intent1)
    (hred : env1.redact intent1.userID p1.mxid m1.mxid = .ok)
    (hb : env2.cfg.allowRedaction = false)
    (hmx2 : (p2.mxid.length == 0) = false)
    (htyp2 : rev2.typ = .revoke)
    (hrec2 : GetByMsgID p2.db p2.key rev2.id = some m2)
    (hfake2 : m2.isFakeMXID = false)
    (hfdup : GetByMsgID p2.db p2.key ("FAKE::" ++ rev2.id) = none)
    (hint2 : env2.puppetIntent (NewUserUID rev2.fromUser.id) = some intent2)
    (hpb2 : (!intent2.isCustomPuppet && p2.IsPrivateChat
        && (NewUserUID rev2.fromUser.id).uin == p2.key.receiver.uin) = false)
    (hsend2 : env2.send intent2 EventMessage
        { msgType := MsgNotice, body := rev2.content, replyToMXID := m2.mxid }
        rev2.timestamp = some eid2) :
    handleWechatEvent env1 p1 rev1
      = { p1 with redactCalls :=
          p1.redactCalls ++ [(intent1.userID, p1.mxid, m1.mxid)] } ∧
    (handleWechatEvent env2 p2 rev2).hubMessages
      = p2.hubMessages
        ++ [⟨intent2.userID, EventMessage,
             { msgType := MsgNotice, body := rev2.content,
               replyToMXID := m2.mxid }, rev2.timestamp, eid2⟩] ∧
    (handleWechatEvent env2 p2 rev2).redactCalls = p2.redactCalls := by
  obtain ⟨rid1, rts1, rfrom1, rchat1, rtyp1, rcontent1, rment1, rreply1, rdata1⟩ := rev1
  obtain ⟨rid2, rts2, rfrom2, rchat2, rtyp2, rcontent2, rment2, rreply2, rdata2⟩ := rev2
  simp only at htyp1 hrec1 hint1 htyp2 hrec2 hfdup hint2 hpb2 hsend2
  subst htyp1
  subst htyp2
  have h2 : handleWechatEvent env2 p2
      ⟨rid2, rts2, rfrom2, rchat2, .revoke, rcontent2, rment2, rreply2, rdata2⟩
      = finishHandling
          { p2 with hubMessages := p2.hubMessages ++
              [⟨intent2.userID, EventMessage,
                { msgType := MsgNotice, body := rcontent2,
                  replyToMXID := m2.mxid }, rts2, eid2⟩] }
          none ("FAKE::" ++ rid2) rts2 (NewUserUID rfrom2.id) eid2
          MsgTypeFake MsgNoError := by
    unfold handleWechatEvent handleWechatRevoke handleFakeMessage
    simp [hmx2, hrec2, hb, isRecentlyHandled_false, hfdup, hint2, hpb2,
      SetReply, hfake2, sendMessageP, hsend2]
  refine ⟨?_, ?_, ?_⟩
  · unfold handleWechatEvent handleWechatRevoke
    simp [hmx1, hrec1, ha, hfake1, hint1, hred]
  · rw [h2]
    unfold finishHandling
    rw [markHandled_hubMessages]
  · rw [h2]
    unfold finishHandling
    rw [markHandled_redactCalls]

/-- Witness for C5 at a concrete bridged message and revocation, once with
redactions allowed and once with them disabled. -/
theorem revocation_override_witness :
    handleWechatEvent okEnv sampleBridged sampleRevoke
      = { sampleBridged with redactCalls :=
          sampleBridged.redactCalls
            ++ [("@wechat_bob:hs", sampleBridged.mxid, sampleRecord.mxid)] } ∧
    (handleWechatEvent noRedactEnv sampleBridged sampleRevoke).hubMessages
      = sampleBridged.hubMessages
        ++ [⟨"@wechat_bob:hs", EventMessage,
             { msgType := MsgNotice, body := sampleRevoke.content,
               replyToMXID := sampleRecord.mxid },
             sampleRevoke.timestamp, "$sent:hs"⟩] ∧
    (handleWechatEvent noRedactEnv sampleBridged sampleRevoke).redactCalls
      = sampleBridged.redactCalls :=
  revocation_override okEnv sampleBridged sampleRevoke sampleRecord
    ⟨"@wechat_bob:hs", false⟩ noRedactEnv sampleBridged sampleRevoke
    sampleRecord ⟨"@wechat_bob:hs", false⟩ "$sent:hs"
    rfl (by decide) rfl (by decide) (by decide) (by decide) rfl
    rfl (by decide) rfl (by decide) (by decide) (by decide) (by decide)
    (by decide) rfl

/-- Witness for C10 at a concrete roomless portal and failing creation. -/
theorem failedRoomCreation_drops_message_witness :
    handleWechatMessageLoopItem createFailEnv pNoRoom (.event sampleTextEvent)
      = pNoRoom ∧
    runWechatMessageLoop createFailEnv pNoRoom
        [.event sampleTextEvent, .event sampleVideoEvent]
      = runWechatMessageLoop createFailEnv pNoRoom [.event sampleVideoEvent] :=
  ⟨(failedRoomCreation_drops_message createFailEnv pNoRoom
      (.event sampleTextEvent) "M_UNKNOWN" rfl rfl).1,
    (failedRoomCreation_drops_message createFailEnv pNoRoom
      (.event sampleTextEvent) "M_UNKNOWN" rfl rfl).2 [.event sampleVideoEvent]⟩

/-- Witness for C9 at a concrete disconnected transport. -/
theorem clientFacade_degrades_witness :
    clientIsLoggedIn cFail (fun _ => none) = false ∧
    clientGetSelf cFail (fun _ => none) = none ∧
    clientGetUserInfo cFail "wxid_1" (fun _ => none) = none ∧
    clientGetGroupInfo cFail "wxid_2" (fun _ => none) = none ∧
    clientGetGroupMembers cFail "wxid_3" (fun _ => none) = none ∧
    clientGetFriendList cFail (fun _ => none) = [] ∧
    clientGetGroupList cFail (fun _ => none) = [] :=
  clientFacade_degrades cFail cFail cFail cFail cFail cFail cFail
    "wxid_1" "wxid_2" "wxid_3"
    (fun _ => none) (fun _ => none) (fun _ => none) (fun _ => none)
    (fun _ => none) (fun _ => none) (fun _ => none)
    "websocket not connected" "websocket not connected"
    "websocket not connected" "websocket not connected"
    "websocket not connected" "websocket not connected"
    "websocket not connected"
    rfl rfl rfl rfl rfl rfl rfl

/-- Helper: the read-loop step never changes the request-waiter map. -/
theorem serveLoopStep_requests (s : ServiceState) (f : Frame) :
    (serveLoopStep s f).websocketRequests = s.websocketRequests := by
  unfold serveLoopStep
  repeat' split
  all_goals rfl

/-- Helper: folding the read loop over any frames never changes the
request-waiter map. -/
theorem foldServe_requests (fs : List Frame) (s : ServiceState) :
    (fs.foldl serveLoopStep s).websocketRequests = s.websocketRequests := by
  induction fs generalizing s with
  | nil => rfl
  | cons a as ih => rw [List.foldl_cons, ih, serveLoopStep_requests]

/-- Helper: a successful waiter-map lookup names a registered entry. -/
theorem lookupReq_mem {m : List (Int × Nat)} {r : Int} {c : Nat}
    (h : lookupReq m r = some c) : (r, c) ∈ m := by
  unfold lookupReq at h
  cases hf : m.find? (fun e => e.1 == r) with
  | none => simp [hf] at h
  | some e =>
    have hm := List.mem_of_find?_eq_some hf
    have hp : e.1 = r := by simpa using List.find?_some hf
    simp only [hf, Option.map_some', Option.some.injEq] at h
    obtain ⟨e1, e2⟩ := e
    simp only at hp h
    subst hp
    subst h
    exact hm

/-- Helper: delivering into channel c0 leaves every other channel alone and
overwrites c0 when it exists. -/
theorem chanGet_chanPut (cs : List (Nat × Option Frame)) (c c0 : Nat)
    (f : Frame) :
    chanGet (chanPut cs c0 f) c
      = if c = c0 then (chanGet cs c).map (fun _ => some f)
        else chanGet cs c := by
  unfold chanGet chanPut
  rw [List.find?_map]
  have hpg : ((fun (e : Nat × Option Frame) => e.1 == c) ∘
      (fun e => if e.1 == c0 then (e.1, some f) else e))
      = fun (e : Nat × Option Frame) => e.1 == c := by
    funext e
    by_cases h : (e.1 == c0) = true <;> simp [Function.comp, h]
  rw [hpg]
  cases hf : cs.find? (fun e => e.1 == c) with
  | none => split <;> simp
  | some e =>
    have he : e.1 = c := by simpa using List.find?_some hf
    by_cases hc : c = c0
    · subst hc
      simp [he]
    · have hne : e.1 ≠ c0 := by rw [he]; exact hc
      simp [hne, hc]

/-- Helper: one read-loop step preserves the single-owner channel
invariant: the channel of the fresh request holds nothing or a frame whose
id is the fresh request id. -/
theorem serveLoopStep_chan (s : ServiceState) (f : Frame) (reqID : Int)
    (ch : Nat)
    (hmap : ∀ e ∈ s.websocketRequests, e.2 = ch → e.1 = reqID)
    (hch : chanGet s.chans ch = some none ∨
      ∃ g, chanGet s.chans ch = some (some g) ∧ g.reqID = reqID) :
    chanGet (serveLoopStep s f).chans ch = some none ∨
      ∃ g, chanGet (serveLoopStep s f).chans ch = some (some g) ∧
        g.reqID = reqID := by
  unfold serveLoopStep
  by_cases h1 : (f.command == "") = true
  · rw [if_pos h1]; exact hch
  rw [if_neg h1]
  by_cases h2 : (f.command == CommandPing) = true
  · rw [if_pos h2]; exact hch
  rw [if_neg h2]
  by_cases h3 : (f.command == CommandResponse || f.command == CommandError) = true
  · rw [if_pos h3]
    cases hlook : lookupReq s.websocketRequests f.reqID with
    | none => dsimp only; exact hch
    | some ch0 =>
      dsimp only
      cases hbuf : chanGet s.chans ch0 with
      | none => dsimp only; exact hch
      | some slot =>
        cases slot with
        | none =>
          dsimp only
          rw [chanGet_chanPut]
          by_cases hc : ch = ch0
          · subst hc
            rw [if_pos rfl, hbuf]
            exact Or.inr ⟨f, rfl, hmap _ (lookupReq_mem hlook) rfl⟩
          · rw [if_neg hc]
            exact hch
        | some g => dsimp only; exact hch
  · rw [if_neg h3]
    exact hch

/-- Helper: folding the read loop preserves the single-owner channel
invariant. -/
theorem foldServe_chan (fs : List Frame) (s : ServiceState) (reqID : Int)
    (ch : Nat)
    (hmap : ∀ e ∈ s.websocketRequests, e.2 = ch → e.1 = reqID)
    (hch : chanGet s.chans ch = some none ∨
      ∃ g, chanGet s.chans ch = some (some g) ∧ g.reqID = reqID) :
    chanGet (fs.foldl serveLoopStep s).chans ch = some none ∨
      ∃ g, chanGet (fs.foldl serveLoopStep s).chans ch = some (some g) ∧
        g.reqID = reqID := by
  induction fs generalizing s with
  | nil => exact hch
  | cons a as ih =>
    rw [List.foldl_cons]
    exact ih (serveLoopStep s a)
      (by rw [serveLoopStep_requests]; exact hmap)
      (serveLoopStep_chan s a reqID ch hmap hch)

/-- Helper: an empty waiter-map lookup means no entry carries the key. -/
theorem lookupReq_eq_none {m : List (Int × Nat)} {r : Int}
    (h : lookupReq m r = none) : ∀ e ∈ m, ¬((e.1 == r) = true) := by
  unfold lookupReq at h
  rw [Option.map_eq_none'] at h
  exact fun e he => List.find?_eq_none.mp h e he

/-- Helper: deregistering the head waiter restores the remaining map when
no other entry carries the same id. -/
theorem removeWaiter_requests (s : ServiceState) (reqID : Int) (ch : Nat)
    (rest : List (Int × Nat))
    (hs : s.websocketRequests = (reqID, ch) :: rest)
    (hrest : ∀ e ∈ rest, ¬((e.1 == reqID) = true)) :
    (removeWebsocketResponseWaiter s reqID ch).websocketRequests = rest := by
  unfold removeWebsocketResponseWaiter lookupReq
  rw [hs]
  rw [List.find?_cons_of_pos _ (by simp)]
  dsimp only [Option.map_some']
  rw [if_pos (by simp)]
  dsimp only
  rw [List.filter_cons]
  simp only [beq_self_eq_true, Bool.not_true, Bool.false_eq_true, if_false]
  exact List.filter_eq_self.mpr (fun e he => by
    simpa using hrest e he)

/-- C3: request/response matching. A RequestWebsocket call whose send
succeeds, on a well-formed multiplexer state and against an arbitrary
interleaving of response frames arriving for any request ids, observes
exactly one outcome, and that outcome is a timeout, the connection-closed
return, or a response frame whose request id equals the id allocated for
this very call — never a response belonging to another request. -/
theorem requestResponse_matching (st : ServiceState) (hWF : WFService st)
    (arrivals : List Frame) (respFirst : Bool) :
    (requestWebsocket st none arrivals respFirst).2 = .timedOut ∨
    (requestWebsocket st none arrivals respFirst).2 = .wsClosed ∨
    (∃ f, ((requestWebsocket st none arrivals respFirst).2 = .success f ∨
        (requestWebsocket st none arrivals respFirst).2 = .errorResp f) ∧
      f.reqID = nextReqID st) := by
  have hmap2 : ∀ e ∈ ((nextReqID st, st.nextChan) :: st.websocketRequests),
      e.2 = st.nextChan → e.1 = nextReqID st := by
    intro e he hc
    rcases List.mem_cons.mp he with h | h
    · rw [h]
    · exact absurd hc (Nat.ne_of_lt (hWF.chansBound e h))
  have hch2 : chanGet (st.chans ++ [(st.nextChan, none)]) st.nextChan
      = some none := by
    unfold chanGet
    rw [List.find?_append]
    have h1 : st.chans.find? (fun e => e.1 == st.nextChan) = none := by
      rw [List.find?_eq_none]
      intro e he
      simpa using Nat.ne_of_lt (hWF.chansAll e he)
    rw [h1]
    simp [List.find?]
  have hfold := foldServe_chan arrivals
    (addWebsocketResponseWaiter
      { st with wsRequestID := nextReqID st, nextChan := st.nextChan + 1,
                chans := st.chans ++ [(st.nextChan, none)] }
      (nextReqID st) st.nextChan)
    (nextReqID st) st.nextChan hmap2 (Or.inl hch2)
  simp only [requestWebsocket]
  rcases hfold with h | ⟨g, hg, hgid⟩
  · rw [h]
    exact Or.inl rfl
  · rw [hg]
    cases respFirst with
    | false => exact Or.inl rfl
    | true =>
      dsimp only
      by_cases hcl : (g.command == CommandClosed) = true
      · rw [if_pos hcl]
        exact Or.inr (Or.inl rfl)
      · rw [if_neg hcl]
        by_cases herr : (g.command == CommandError) = true
        · rw [if_pos herr]
          exact Or.inr (Or.inr ⟨g, Or.inr rfl, hgid⟩)
        · rw [if_neg herr]
          exact Or.inr (Or.inr ⟨g, Or.inl rfl, hgid⟩)

/-- C4: waiter cleanup and late-response isolation. After a
RequestWebsocket call completes by any path (send failure, delivered
response, or timeout), the deferred deregistration has removed its waiter:
the request map equals the pre-call map (no entry leaked, other in-flight
registrations intact), the completed id no longer resolves, and a response
frame arriving later for that id leaves the whole multiplexer state
untouched — dropped with a log, delivered to no one. -/
theorem requestWaiter_cleanup (st : ServiceState) (hWF : WFService st)
    (sendErr : Option String) (arrivals : List Frame) (respFirst : Bool) :
    ((requestWebsocket st sendErr arrivals respFirst).1).websocketRequests
      = st.websocketRequests ∧
    lookupReq
      ((requestWebsocket st sendErr arrivals respFirst).1).websocketRequests
      (nextReqID st) = none ∧
    ∀ f : Frame, f.reqID = nextReqID st →
      serveLoopStep (requestWebsocket st sendErr arrivals respFirst).1 f
        = (requestWebsocket st sendErr arrivals respFirst).1 := by
  have hrest := lookupReq_eq_none hWF.freshID
  have hreq : ((requestWebsocket st sendErr arrivals respFirst).1).websocketRequests
      = st.websocketRequests := by
    cases sendErr with
    | some e =>
      have hfst : (requestWebsocket st (some e) arrivals respFirst).1
          = removeWebsocketResponseWaiter
              (addWebsocketResponseWaiter
                { st with wsRequestID := nextReqID st,
                          nextChan := st.nextChan + 1,
                          chans := st.chans ++ [(st.nextChan, none)] }
                (nextReqID st) st.nextChan)
              (nextReqID st) st.nextChan := by
        simp only [requestWebsocket]
      rw [hfst]
      exact removeWaiter_requests _ _ _ _ rfl hrest
    | none =>
      have hfst : (requestWebsocket st none arrivals respFirst).1
          = removeWebsocketResponseWaiter
              (arrivals.foldl serveLoopStep
                (addWebsocketResponseWaiter
                  { st with wsRequestID := nextReqID st,
                            nextChan := st.nextChan + 1,
                            chans := st.chans ++ [(st.nextChan, none)] }
                  (nextReqID st) st.nextChan))
              (nextReqID st) st.nextChan := by
        simp only [requestWebsocket]
        split <;> rfl
      rw [hfst]
      exact removeWaiter_requests _ _ _ _
        (by rw [foldServe_requests]; rfl) hrest
  refine ⟨hreq, ?_, ?_⟩
  · rw [hreq]
    exact hWF.freshID
  · intro f hf
    unfold serveLoopStep
    by_cases h1 : (f.command == "") = true
    · rw [if_pos h1]
    · rw [if_neg h1]
      by_cases h2 : (f.command == CommandPing) = true
      · rw [if_pos h2]
      · rw [if_neg h2]
        by_cases h3 : (f.command == CommandResponse
            || f.command == CommandError) = true
        · rw [if_pos h3, hreq, hf, hWF.freshID]
        · rw [if_neg h3]

/-- Witness for C3 at the empty multiplexer state, with a matching and a
foreign response arriving. -/
theorem requestResponse_matching_witness :
    (requestWebsocket ({} : ServiceState) none
        [⟨1, "response", "ok"⟩, ⟨99, "response", "other"⟩] true).2
      = .timedOut ∨
    (requestWebsocket ({} : ServiceState) none
        [⟨1, "response", "ok"⟩, ⟨99, "response", "other"⟩] true).2
      = .wsClosed ∨
    (∃ f, ((requestWebsocket ({} : ServiceState) none
          [⟨1, "response", "ok"⟩, ⟨99, "response", "other"⟩] true).2
        = .success f ∨
        (requestWebsocket ({} : ServiceState) none
          [⟨1, "response", "ok"⟩, ⟨99, "response", "other"⟩] true).2
        = .errorResp f) ∧
      f.reqID = nextReqID ({} : ServiceState)) :=
  requestResponse_matching {}
    ⟨rfl, (fun _ he => nomatch he), (fun _ he => nomatch he)⟩
    [⟨1, "response", "ok"⟩, ⟨99, "response", "other"⟩] true

/-- Witness for C4 at the empty multiplexer state: the call completes by
timeout and a late response for its id is dropped without any state
change. -/
theorem requestWaiter_cleanup_witness :
    ((requestWebsocket ({} : ServiceState) none [] true).1).websocketRequests
      = ({} : ServiceState).websocketRequests ∧
    lookupReq ((requestWebsocket ({} : ServiceState) none [] true).1).websocketRequests
      (nextReqID ({} : ServiceState)) = none ∧
    serveLoopStep (requestWebsocket ({} : ServiceState) none [] true).1
        ⟨1, "response", "late"⟩
      = (requestWebsocket ({} : ServiceState) none [] true).1 :=
  ⟨(requestWaiter_cleanup {}
      ⟨rfl, (fun _ he => nomatch he), (fun _ he => nomatch he)⟩ none [] true).1,
    (requestWaiter_cleanup {}
      ⟨rfl, (fun _ he => nomatch he), (fun _ he => nomatch he)⟩ none [] true).2.1,
    (requestWaiter_cleanup {}
      ⟨rfl, (fun _ he => nomatch he), (fun _ he => nomatch he)⟩ none [] true).2.2
      ⟨1, "response", "late"⟩ (by decide)⟩

/-- C8: the claim says the synthetic FAKE-prefixed local id recorded on a
successful hub-to-remote send makes the eventual remote echo be recognized
as a duplicate by the step-1 dedup lookup. The code records
FAKE:: followed by the hub event timestamp (portal.go line 1465, with a
TODO to obtain the real remote id), while the step-1 lookup keys on the
echo frame remote-issued id; the two can never coincide, so the lookup
misses and the echo is bridged again. At the concrete run: the record
exists and is FAKE-prefixed (the first half of the claim holds), the
lookup under the echo id finds nothing, and processing the echo appends a
second hub message. -/
theorem matrixEcho_not_deduplicated :
    ((GetByMsgID pmAfterSend.db pmAfterSend.key "FAKE::1000").map
        (fun m => m.msgID)) = some ("FAKE::" ++ toString (1000 : Int)) ∧
    GetByMsgID pmAfterSend.db pmAfterSend.key "777" = none ∧
    pmAfterEcho.hubMessages.length = pmAfterSend.hubMessages.length + 1 := by
  refine ⟨?_, ?_, ?_⟩ <;> decide

/-- Witness for C1 at a concrete group portal and text event. -/
theorem dedup_idempotent_witness :
    (handleWechatEvent okEnv samplePortal sampleTextEvent).hubMessages.length
      = samplePortal.hubMessages.length + 1 ∧
    handleWechatEvent okEnv
        (handleWechatEvent okEnv samplePortal sampleTextEvent) sampleTextEvent
      = handleWechatEvent okEnv samplePortal sampleTextEvent :=
  dedup_idempotent okEnv samplePortal sampleTextEvent
    ⟨"@wechat_bob:hs", false⟩ "$sent:hs"
    (by decide) rfl rfl rfl (by decide) rfl rfl (by decide)

end MWBridge
